import Mathlib

/-!
# Verification of the deckshield-torneos tournament round/score core

Shallow embedding of the JavaScript source of the `deckshield-torneos`
repository (Shopify app-proxy endpoints recording tournament rounds and a
derived win/loss/tie score).

The repository contains near-duplicate versions of the proxy endpoint.  Where
two versions implement the same operation differently, both are embedded and
named with a `part2_` prefix (the version in `src/unnamed/part_002`, which
contains `computeScore`, `sanitizeRounds` and `persistRounds`) or a `part3_`
prefix (the version embedded in `src/unnamed/part_003`, which contains the
field-validating `updateRound` and the `max+1` `addRound` but persists through
a `saveRounds` that does not touch the score).

Modelling conventions:
* JavaScript query-parameter values are `RawValue` (absent / null / string).
* A stored field that JavaScript may hold as `undefined`, `null` or a proper
  value is `UOpt`.
* JavaScript numbers are modelled as exact rationals `ℚ`; `Number()` string
  coercion is modelled by `jsNumber` on the decimal-literal fragment of its
  grammar (sign, digits, optional fractional part).  Inputs outside that
  fragment are mapped to `none`, modelling NaN/Infinity (both of which the
  source discards through its `Number.isFinite` check).
* Database I/O is modelled functionally: a read-modify-write handler becomes a
  pure function from the loaded record (and the request patch) to the record
  it writes, or an `Except` error when the source returns early without
  writing.
-/

namespace Torneos

/-- A raw query value as seen by the handlers: the parameter may be absent
(JavaScript `undefined`), explicit `null`, or a string. -/
inductive RawValue
  | absent
  | null
  | str (s : String)
deriving DecidableEq

/-- A stored field that JavaScript code may set to `undefined`, `null`, or a
proper value.  `undef` and `null` behave identically under the score
calculator's `?? null` but are distinguishable in the stored record. -/
inductive UOpt (α : Type)
  | undef
  | null
  | val (a : α)
deriving DecidableEq

/-- Game result enumeration `{W, L, T}`. -/
inductive GameResult
  | W
  | L
  | T
deriving DecidableEq

/-- Turn enumeration `{FIRST, SECOND}`. -/
inductive Turn
  | FIRST
  | SECOND
deriving DecidableEq

/-- Special round disposition enumeration `{ID, NO_SHOW, BYE}`. -/
inductive Special
  | ID
  | NO_SHOW
  | BYE
deriving DecidableEq

/-- One game slot inside a round: `{game, result, turn}`. -/
structure Game where
  game : ℚ
  result : Option GameResult
  turn : Option Turn
deriving DecidableEq

/-- The opponent-deck facets `{p1, p2}`. -/
structure Deck where
  p1 : Option ℚ
  p2 : Option ℚ
deriving DecidableEq

/-- A tournament round.  `opponent_deck` is `Option` because loaded data may
lack it (the sanitizer and `part3_updateRound` default it); `special` is
`UOpt` because `part2_updateRound` can store JavaScript `undefined` there. -/
structure Round where
  round_number : ℚ
  opponent_deck : Option Deck
  games : List Game
  special : UOpt Special
deriving DecidableEq

/-- The derived score summary `{wins, losses, ties, text}`. -/
structure Score where
  wins : Nat
  losses : Nat
  ties : Nat
  text : String
deriving DecidableEq

/-- The tournament's stored `score` column: the part_003 create handler writes
a bare `{}` there, the part_002 pipeline writes a full score object. -/
inductive ScoreField
  | empty
  | score (s : Score)
deriving DecidableEq

/-- The slice of a persisted tournament row that the round operations
read and write: its `rounds` and `score` columns. -/
structure TournamentRec where
  rounds : List Round
  score : ScoreField
deriving DecidableEq

/-! ## Number coercion and `toIntOrNull` -/

/-- Value of a digit string, most significant first. -/
def digitsVal (l : List Char) : Nat :=
  l.foldl (fun a c => a * 10 + (c.toNat - 48)) 0

/-- Magnitude part of `jsNumber`: digits with an optional single dot. -/
def jsNumMag (l : List Char) : Option ℚ :=
  let ip := l.takeWhile (fun c => c ≠ '.')
  let rest := l.dropWhile (fun c => c ≠ '.')
  match rest with
  | [] =>
    if ip.isEmpty || !(ip.all Char.isDigit) then none
    else some (digitsVal ip)
  | _ :: fp =>
    if fp.contains '.' then none
    else if ip.isEmpty && fp.isEmpty then none
    else if ip.all Char.isDigit && fp.all Char.isDigit then
      some ((digitsVal ip : ℚ) + (digitsVal fp : ℚ) / ((10 : ℚ) ^ fp.length))
    else none

/-- Model of JavaScript `Number(string)` coercion on the decimal-literal
fragment (optional sign, digits, optional fractional part).  Strings outside
this fragment yield `none`, modelling NaN (which `toIntOrNull` maps to null
via `Number.isFinite`).  The source never applies it to `""`. -/
def jsNumber (s : String) : Option ℚ :=
  match s.data with
  | '-' :: t => (jsNumMag t).map (fun x => -x)
  | '+' :: t => jsNumMag t
  | t => jsNumMag t

/-- Helper `toIntOrNull` (identical in part_002 line 27 and part_003 line 72):
`undefined`/`null`/`""` give null; otherwise `Number(v)` if finite, else
null.  It never signals invalidity. -/
def toIntOrNull (v : RawValue) : Option ℚ :=
  match v with
  | .absent => none
  | .null => none
  | .str s => if s = "" then none else jsNumber s

/-- ASCII uppercase of one character, modelling the case mapping that
`String.prototype.toUpperCase()` applies to the enumeration letters the
normalizers compare against. -/
def upperChar (c : Char) : Char :=
  if 97 ≤ c.toNat ∧ c.toNat ≤ 122 then Char.ofNat (c.toNat - 32) else c

/-- Model of JavaScript `String(v).toUpperCase()` restricted to ASCII case
mapping (the only case mapping the enum comparisons can distinguish). -/
def toUpperAscii (s : String) : String :=
  String.mk (s.data.map upperChar)

/-! ## Domain value normalizers

Each returns `Option (Option α)`:
`none` models JavaScript `undefined` (returned both for an absent input and
for an unrecognized input), `some none` models explicit `null`, and
`some (some x)` a canonical enum value. -/

/-- Normalizer `normalizeResult` (part_002 line 33, part_003 line 78). -/
def normalizeResult (v : RawValue) : Option (Option GameResult) :=
  match v with
  | .absent => none
  | .null => some none
  | .str s =>
    if s = "" ∨ s = "null" then some none
    else if toUpperAscii s = "W" then some (some .W)
    else if toUpperAscii s = "L" then some (some .L)
    else if toUpperAscii s = "T" then some (some .T)
    else none

/-- Normalizer `normalizeTurn` (part_002 line 42, part_003 line 87). -/
def normalizeTurn (v : RawValue) : Option (Option Turn) :=
  match v with
  | .absent => none
  | .null => some none
  | .str s =>
    if s = "" ∨ s = "null" then some none
    else if toUpperAscii s = "FIRST" then some (some .FIRST)
    else if toUpperAscii s = "SECOND" then some (some .SECOND)
    else none

/-- Normalizer `normalizeSpecial` (part_002 line 51, part_003 line 96). -/
def normalizeSpecial (v : RawValue) : Option (Option Special) :=
  match v with
  | .absent => none
  | .null => some none
  | .str s =>
    if s = "" ∨ s = "null" then some none
    else if toUpperAscii s = "ID" then some (some .ID)
    else if toUpperAscii s = "NO_SHOW" then some (some .NO_SHOW)
    else if toUpperAscii s = "BYE" then some (some .BYE)
    else none

/-! ## Score calculator (`computeScore`, part_002 lines 63-100) -/

/-- The score calculator's view of a round's `special` field:
`r?.special ?? null` collapses `undefined` to `null`. -/
def specialOf (r : Round) : Option Special :=
  match r.special with
  | .val s => some s
  | _ => none

/-- One iteration of `computeScore`'s inner game loop: skip a null result,
otherwise count `W` and `L` and record that some result was reported. -/
def gameStep (acc : Nat × Nat × Bool) (g : Game) : Nat × Nat × Bool :=
  match g.result with
  | none => acc
  | some res =>
    ((if res = .W then acc.1 + 1 else acc.1),
     (if res = .L then acc.2.1 + 1 else acc.2.1),
     true)

/-- Inner loop of `computeScore` over a round's games: counts `W` and `L`
among non-null results and records whether any result was reported. -/
def gameTally (games : List Game) : Nat × Nat × Bool :=
  games.foldl gameStep (0, 0, false)

/-- Body of `computeScore`'s outer loop: classify one round and bump the
`(wins, losses, ties)` accumulator. -/
def scoreStep (acc : Nat × Nat × Nat) (r : Round) : Nat × Nat × Nat :=
  match specialOf r with
  | some .BYE => (acc.1 + 1, acc.2.1, acc.2.2)
  | some .NO_SHOW => (acc.1 + 1, acc.2.1, acc.2.2)
  | some .ID => (acc.1, acc.2.1, acc.2.2 + 1)
  | none =>
    let t := gameTally r.games
    if t.2.2 = false then acc
    else if t.1 > t.2.1 then (acc.1 + 1, acc.2.1, acc.2.2)
    else if t.2.1 > t.1 then (acc.1, acc.2.1 + 1, acc.2.2)
    else (acc.1, acc.2.1, acc.2.2 + 1)

/-- Function `computeScore` (part_002 lines 63-100): fold over the rounds, then format
the text as `wins-losses-ties`. -/
def computeScore (rounds : List Round) : Score :=
  let c := rounds.foldl scoreStep (0, 0, 0)
  { wins := c.1, losses := c.2.1, ties := c.2.2,
    text := toString c.1 ++ "-" ++ toString c.2.1 ++ "-" ++ toString c.2.2 }

/-! ## Round sanitizer (`sanitizeRounds`, part_002 lines 102-118) -/

/-- The three placeholder game slots. -/
def placeholderGames : List Game :=
  [{ game := 1, result := none, turn := none },
   { game := 2, result := none, turn := none },
   { game := 3, result := none, turn := none }]

/-- Per-round body of `sanitizeRounds`: default the opponent deck, and force
the games to the three placeholders when the round is special. -/
def sanitizeRound (r : Round) : Round :=
  let r1 : Round := { r with opponent_deck := some (r.opponent_deck.getD { p1 := none, p2 := none }) }
  if r1.special = .val .BYE ∨ r1.special = .val .NO_SHOW ∨ r1.special = .val .ID then
    { r1 with games := placeholderGames }
  else r1

/-- Function `sanitizeRounds` (part_002 lines 102-118): map `sanitizeRound` over the
collection (a non-array input is treated as `[]`, which the list type already
enforces). -/
def sanitizeRounds (rounds : List Round) : List Round :=
  rounds.map sanitizeRound

/-! ## Persistence helpers

`saveRounds` (part_003 lines 125-140) writes only the `rounds` column;
`persistRounds` (part_002 lines 135-149) first sanitizes and recomputes the
score and writes both columns.  Store-level failures are outside this model:
both are total functions from the matched row to the row they write. -/

/-- Function `saveRounds` (part_003 lines 125-140): `update({ rounds })` - the score
column is left untouched. -/
def saveRounds (t : TournamentRec) (rounds : List Round) : TournamentRec :=
  { t with rounds := rounds }

/-- Function `persistRounds` (part_002 lines 135-149):
`update({ rounds: sanitizeRounds(rounds), score: computeScore(clean) })`. -/
def persistRounds (t : TournamentRec) (rounds : List Round) : TournamentRec :=
  let clean := sanitizeRounds rounds
  let score := computeScore clean
  { t with rounds := clean, score := .score score }

/-! ## Tournament creation -/

/-- JavaScript truthiness of a query value: only a non-empty string is truthy
among the values a query parameter can take. -/
def truthyStr (v : RawValue) : Bool :=
  match v with
  | .str s => !(s = "")
  | _ => false

/-- The rounds/score slice of part_002 `createTournament` (lines 164-186):
requires truthy name and date, inserts `rounds: [], score: computeScore([])`. -/
def part2_createTournament (tournament_name tournament_date : RawValue) :
    Option TournamentRec :=
  if truthyStr tournament_name && truthyStr tournament_date then
    some { rounds := [], score := .score (computeScore []) }
  else none

/-- The rounds/score slice of part_003 `createTournament` (lines 160-204):
requires truthy name and date, inserts `rounds: [], score: {}`. -/
def part3_createTournament (tournament_name tournament_date : RawValue) :
    Option TournamentRec :=
  if truthyStr tournament_name && truthyStr tournament_date then
    some { rounds := [], score := .empty }
  else none

/-! ## addRound -/

/-- The fresh round both `addRound` versions push: all fields null/default. -/
def freshRound (n : ℚ) : Round :=
  { round_number := n,
    opponent_deck := some { p1 := none, p2 := none },
    games := placeholderGames,
    special := .null }

/-- part_002 `addRound` (lines 188-207): `nextNumber = rounds.length + 1`,
push a fresh round, persist via `persistRounds`.  The sum is taken in `Nat`
before casting, which coincides with the JavaScript numeric sum. -/
def part2_addRound (t : TournamentRec) : TournamentRec :=
  let rounds := t.rounds
  let nextNumber : ℚ := ((rounds.length + 1 : Nat) : ℚ)
  persistRounds t (rounds ++ [freshRound nextNumber])

/-- The `maxRound` reduce of part_003 `addRound` (lines 256-259).  The
source's `Number.isFinite` guard is vacuous here because every modelled
`round_number` is a finite rational. -/
def maxRoundNumber (rounds : List Round) : ℚ :=
  rounds.foldl (fun m r => max m r.round_number) 0

/-- part_003 `addRound` (lines 249-277): `newRoundNumber = maxRound + 1`,
push a fresh round, persist via `saveRounds`. -/
def part3_addRound (t : TournamentRec) : TournamentRec :=
  let rounds := t.rounds
  saveRounds t (rounds ++ [freshRound (maxRoundNumber rounds + 1)])

/-! ## updateRound -/

instance {ε α : Type} [DecidableEq ε] [DecidableEq α] : DecidableEq (Except ε α) :=
  fun a b =>
    match a, b with
    | .error e, .error f =>
      if h : e = f then .isTrue (by rw [h]) else .isFalse (by simp [h])
    | .error _, .ok _ => .isFalse (by simp)
    | .ok _, .error _ => .isFalse (by simp)
    | .ok x, .ok y =>
      if h : x = y then .isTrue (by rw [h]) else .isFalse (by simp [h])

/-- The `update_round` query parameters.  Any parameter may be absent. -/
structure Patch where
  round_number : RawValue
  op_p1 : RawValue
  op_p2 : RawValue
  special : RawValue
  g1 : RawValue
  g2 : RawValue
  g3 : RawValue
  g1_turn : RawValue
  g2_turn : RawValue
  g3_turn : RawValue
deriving DecidableEq

/-- A patch with every parameter absent. -/
def emptyPatch : Patch :=
  { round_number := .absent, op_p1 := .absent, op_p2 := .absent,
    special := .absent, g1 := .absent, g2 := .absent, g3 := .absent,
    g1_turn := .absent, g2_turn := .absent, g3_turn := .absent }

/-- Placeholder round handed to `List.getD` at indices that `findIdx?` has
already certified to be in range. -/
def defaultRound : Round :=
  { round_number := 0, opponent_deck := none, games := [], special := .null }

/-- Lift a normalizer's non-`undefined` outcome into a stored `UOpt` field:
explicit null or a canonical value. -/
def uoptOfOpt {α : Type} : Option α → UOpt α
  | none => .null
  | some a => .val a

/-- Store the raw three-way outcome of a normalizer as part_002
`updateRound`'s `r.special = normalizeSpecial(q.special)` does: the
JavaScript `undefined` returned for an invalid value is stored as-is. -/
def uoptOfNorm {α : Type} : Option (Option α) → UOpt α
  | none => .undef
  | some none => .null
  | some (some a) => .val a

/-- part_002 `updateRound` (lines 209-232).  Normalized `special` is assigned
without checking for the invalid (`undefined`) outcome; an invalid `g1` is
silently skipped (same test as for an absent one); only game slot 0 is
addressable.  The source reads `r.opponent_deck.p1` without a default: the
rounds this API builds always carry a deck object, which `getD` models. -/
def part2_updateRound (t : TournamentRec) (q : Patch) :
    Except String TournamentRec :=
  match toIntOrNull q.round_number with
  | none => .error "Invalid round_number"
  | some rn =>
    if rn = 0 then .error "Invalid round_number"
    else
      match t.rounds.findIdx? (fun r => decide (r.round_number = rn)) with
      | none => .error "Round not found"
      | some idx =>
        let r0 := t.rounds.getD idx defaultRound
        let r1 :=
          if q.op_p1 = .absent then r0
          else
            let deck1 := r0.opponent_deck.getD { p1 := none, p2 := none }
            { r0 with opponent_deck := some { deck1 with p1 := toIntOrNull q.op_p1 } }
        let r2 :=
          if q.op_p2 = .absent then r1
          else
            let deck2 := r1.opponent_deck.getD { p1 := none, p2 := none }
            { r1 with opponent_deck := some { deck2 with p2 := toIntOrNull q.op_p2 } }
        let r3 :=
          if q.special = .absent then r2
          else { r2 with special := uoptOfNorm (normalizeSpecial q.special) }
        let r4 :=
          match normalizeResult q.g1 with
          | none => r3
          | some x => { r3 with games := r3.games.modifyHead (fun g => { g with result := x }) }
        .ok (persistRounds t (t.rounds.set idx r4))

/-- Opponent-deck block of part_003 `updateRound` (lines 296-302): if either
`op_p1` or `op_p2` is present, default the deck object and overwrite the
present facets. -/
def part3_applyDeck (round : Round) (q : Patch) : Round :=
  if q.op_p1 = .absent ∧ q.op_p2 = .absent then round
  else
    let deck := round.opponent_deck.getD { p1 := none, p2 := none }
    let deck := if q.op_p1 = .absent then deck else { deck with p1 := toIntOrNull q.op_p1 }
    let deck := if q.op_p2 = .absent then deck else { deck with p2 := toIntOrNull q.op_p2 }
    { round with opponent_deck := some deck }

/-- Special block of part_003 `updateRound` (lines 305-309): a present value
that normalizes to `undefined` aborts the update. -/
def part3_applySpecial (round : Round) (q : Patch) : Except String Round :=
  if q.special = .absent then .ok round
  else
    match normalizeSpecial q.special with
    | none => .error "Invalid special value"
    | some s => .ok { round with special := uoptOfOpt s }

/-- The `byNum` lookup of part_003 `updateRound` (lines 335-338): a `Map`
keyed by game number (later entries win), with the placeholder slot as
default. -/
def byNumGet (games : List Game) (n : ℚ) : Game :=
  (games.foldl (fun acc g => if g.game = n then some g else acc) none).getD
    { game := n, result := none, turn := none }

/-- Games block of part_003 `updateRound` (lines 320-348): validate all six
game parameters, then rebuild the three slots by game number and apply the
present values. -/
def part3_applyGames (round : Round) (q : Patch) : Except String Round :=
  let g1 := normalizeResult q.g1
  let g2 := normalizeResult q.g2
  let g3 := normalizeResult q.g3
  if q.g1 ≠ .absent ∧ g1 = none then .error "Invalid g1 value"
  else if q.g2 ≠ .absent ∧ g2 = none then .error "Invalid g2 value"
  else if q.g3 ≠ .absent ∧ g3 = none then .error "Invalid g3 value"
  else
    let g1t := normalizeTurn q.g1_turn
    let g2t := normalizeTurn q.g2_turn
    let g3t := normalizeTurn q.g3_turn
    if q.g1_turn ≠ .absent ∧ g1t = none then .error "Invalid g1_turn value"
    else if q.g2_turn ≠ .absent ∧ g2t = none then .error "Invalid g2_turn value"
    else if q.g3_turn ≠ .absent ∧ g3t = none then .error "Invalid g3_turn value"
    else
      let game1 := byNumGet round.games 1
      let game2 := byNumGet round.games 2
      let game3 := byNumGet round.games 3
      let game1 := if q.g1 = .absent then game1 else { game1 with result := g1.getD none }
      let game2 := if q.g2 = .absent then game2 else { game2 with result := g2.getD none }
      let game3 := if q.g3 = .absent then game3 else { game3 with result := g3.getD none }
      let game1 := if q.g1_turn = .absent then game1 else { game1 with turn := g1t.getD none }
      let game2 := if q.g2_turn = .absent then game2 else { game2 with turn := g2t.getD none }
      let game3 := if q.g3_turn = .absent then game3 else { game3 with turn := g3t.getD none }
      .ok { round with games := [game1, game2, game3] }

/-- part_003 `updateRound` (lines 279-353): parse and locate the round, then
apply the deck, special and games blocks, each of which can abort before the
single `saveRounds` write.  The source's `Array.isArray(round.games)` default
is unrepresentable here because `games` is already a list. -/
def part3_updateRound (t : TournamentRec) (q : Patch) :
    Except String TournamentRec :=
  match toIntOrNull q.round_number with
  | none => .error "Missing or invalid round_number"
  | some rn =>
    if rn = 0 then .error "Missing or invalid round_number"
    else
      match t.rounds.findIdx? (fun r => decide (r.round_number = rn)) with
      | none => .error "Round not found"
      | some idx =>
        let round0 := t.rounds.getD idx defaultRound
        let round1 := part3_applyDeck round0 q
        match part3_applySpecial round1 q with
        | .error e => .error e
        | .ok round2 =>
          match part3_applyGames round2 q with
          | .error e => .error e
          | .ok round3 => .ok (saveRounds t (t.rounds.set idx round3))

/-! ## Handler short-circuit on missing customer id -/

/-- The JSON body a handler answers with before reaching any dispatch or
database work.  Each constructor stands for a distinct JSON object. -/
inductive Body
  | loggedOut
  | tournamentsEmpty
deriving DecidableEq

/-- Either a short-circuit response or continuation into customer-scoped
dispatch/database work with the given customer id. -/
inductive HandlerStep
  | respond (b : Body)
  | proceed (customerId : String)
deriving DecidableEq

/-- Identity step of the `src/api/proxy.js` handler after signature
verification (lines 158-166): a falsy `logged_in_customer_id` answers
`{ok:true, logged_in:false}` before the action switch. -/
def proxyRoute (logged_in_customer_id : RawValue) : HandlerStep :=
  match logged_in_customer_id with
  | .str s => if s = "" then .respond .loggedOut else .proceed s
  | _ => .respond .loggedOut

/-- Identity step of the `src/api/tournaments.js` handler after signature
verification (lines 33-39): a falsy `logged_in_customer_id` answers
`{ok:true, tournaments:[]}` before the database query. -/
def tournamentsRoute (logged_in_customer_id : RawValue) : HandlerStep :=
  match logged_in_customer_id with
  | .str s => if s = "" then .respond .tournamentsEmpty else .proceed s
  | _ => .respond .tournamentsEmpty

/-! ## Specification-side definitions

The following definitions transcribe the specification's words (not the
source); the theorems below compare the source embeddings against them. -/

/-- Number of games in a round whose reported result is `res`. -/
def countResult (games : List Game) (res : GameResult) : Nat :=
  (games.filter (fun g => g.result = some res)).length

/-- Whether any game of the round has a reported (non-null) result. -/
def reported (games : List Game) : Bool :=
  games.any (fun g => g.result.isSome)

/-- A round's contribution to the tally. -/
inductive RoundOutcome
  | win
  | loss
  | tie
deriving DecidableEq

/-- Modelled from the spec's words (§4.2): `special` BYE or NO_SHOW count as
a win and ID as a tie; otherwise compare the counts of reported `W` and `L`
games, contributing nothing when no game result is reported at all. -/
def roundOutcomeSpec (r : Round) : Option RoundOutcome :=
  match specialOf r with
  | some .BYE => some .win
  | some .NO_SHOW => some .win
  | some .ID => some .tie
  | none =>
    if reported r.games then
      if countResult r.games .W > countResult r.games .L then some .win
      else if countResult r.games .L > countResult r.games .W then some .loss
      else some .tie
    else none

/-- Number of rounds classified with outcome `o` by the spec's rules. -/
def countOutcome (rounds : List Round) (o : RoundOutcome) : Nat :=
  (rounds.filter (fun r => roundOutcomeSpec r = some o)).length

/-- The derived-score invariant of the spec (§3): the stored `score` column
equals the score calculator applied to the stored `rounds` column. -/
def scoreConsistent (t : TournamentRec) : Prop :=
  t.score = .score (computeScore t.rounds)

/-- The patch's `special` is present but normalizes to the invalid
(`undefined`) outcome. -/
def specialInvalid (q : Patch) : Prop :=
  q.special ≠ .absent ∧ normalizeSpecial q.special = none

/-- Some game parameter of the patch is present but normalizes to the
invalid (`undefined`) outcome. -/
def gamesInvalid (q : Patch) : Prop :=
  (q.g1 ≠ .absent ∧ normalizeResult q.g1 = none) ∨
  (q.g2 ≠ .absent ∧ normalizeResult q.g2 = none) ∨
  (q.g3 ≠ .absent ∧ normalizeResult q.g3 = none) ∨
  (q.g1_turn ≠ .absent ∧ normalizeTurn q.g1_turn = none) ∨
  (q.g2_turn ≠ .absent ∧ normalizeTurn q.g2_turn = none) ∨
  (q.g3_turn ≠ .absent ∧ normalizeTurn q.g3_turn = none)

/-- Some patch field is present but normalizes to the invalid (`undefined`)
outcome.  `op_p1`/`op_p2` cannot occur here because `toIntOrNull` never
signals invalidity. -/
def presentInvalid (q : Patch) : Prop :=
  specialInvalid q ∨ gamesInvalid q

instance (q : Patch) : Decidable (specialInvalid q) := by
  unfold specialInvalid; infer_instance

instance (q : Patch) : Decidable (gamesInvalid q) := by
  unfold gamesInvalid; infer_instance

instance (q : Patch) : Decidable (presentInvalid q) := by
  unfold presentInvalid; infer_instance

/-- The special assignment of part_003 `updateRound` on its non-error path,
as a total function. -/
def specialApplied (round : Round) (q : Patch) : Round :=
  if q.special = .absent then round
  else { round with special := uoptOfOpt ((normalizeSpecial q.special).getD none) }

/-- The games rebuild of part_003 `updateRound` on its non-error path, as a
total function. -/
def gamesApplied (round : Round) (q : Patch) : Round :=
  let game1 := byNumGet round.games 1
  let game2 := byNumGet round.games 2
  let game3 := byNumGet round.games 3
  let game1 := if q.g1 = .absent then game1 else { game1 with result := (normalizeResult q.g1).getD none }
  let game2 := if q.g2 = .absent then game2 else { game2 with result := (normalizeResult q.g2).getD none }
  let game3 := if q.g3 = .absent then game3 else { game3 with result := (normalizeResult q.g3).getD none }
  let game1 := if q.g1_turn = .absent then game1 else { game1 with turn := (normalizeTurn q.g1_turn).getD none }
  let game2 := if q.g2_turn = .absent then game2 else { game2 with turn := (normalizeTurn q.g2_turn).getD none }
  let game3 := if q.g3_turn = .absent then game3 else { game3 with turn := (normalizeTurn q.g3_turn).getD none }
  { round with games := [game1, game2, game3] }

/-- The full patch application of part_003 `updateRound` on its non-error
path: deck, then special, then games. -/
def part3_apply (round : Round) (q : Patch) : Round :=
  gamesApplied (specialApplied (part3_applyDeck round q) q) q

/-! ## Concrete sample data used by witnesses and counterexamples -/

/-- A BYE round carrying a reported game and no deck object, as loaded data
may contain before sanitization. -/
def junkByeRound : Round :=
  { round_number := 1,
    opponent_deck := none,
    games := [{ game := 1, result := some .W, turn := some .FIRST }],
    special := .val .BYE }

/-- A one-round tournament as part_002 `addRound` would persist it starting
from a fresh tournament. -/
def oneRoundRec : TournamentRec :=
  { rounds := [freshRound 1],
    score := .score { wins := 0, losses := 0, ties := 0, text := "0-0-0" } }

/-- A patch carrying an invalid `special` value. -/
def invalidSpecialPatch : Patch :=
  { emptyPatch with round_number := .str "1", special := .str "X" }

/-- A patch carrying an invalid `g1` value. -/
def invalidG1Patch : Patch :=
  { emptyPatch with round_number := .str "1", g1 := .str "X" }

/-- A fully valid patch setting `g1` and `g1_turn`. -/
def validPatch : Patch :=
  { emptyPatch with round_number := .str "1", g1 := .str "w", g1_turn := .str "first" }

/-- A fresh round whose `special` has been overwritten with JavaScript
`undefined`, as part_002 `updateRound` stores for an invalid `special`. -/
def undefSpecialRound : Round :=
  { freshRound 1 with special := .undef }

/-- The record part_003 `updateRound` writes when applying `validPatch` to
`oneRoundRec`. -/
def updatedOneRoundRec : TournamentRec :=
  { rounds :=
      [{ round_number := 1,
         opponent_deck := some { p1 := none, p2 := none },
         games :=
           [{ game := 1, result := some .W, turn := some .FIRST },
            { game := 2, result := none, turn := none },
            { game := 3, result := none, turn := none }],
         special := .null }],
    score := .score { wins := 0, losses := 0, ties := 0, text := "0-0-0" } }

/-! ## Score calculator lemmas -/

lemma foldl_gameStep (games : List Game) (w l : Nat) (h : Bool) :
    games.foldl gameStep (w, l, h) =
      (w + countResult games .W, l + countResult games .L, h || reported games) := by
  induction games generalizing w l h with
  | nil => simp [countResult, reported]
  | cons g gs ih =>
    rw [List.foldl_cons]
    cases hr : g.result with
    | none =>
      have hg : gameStep (w, l, h) g = (w, l, h) := by simp [gameStep, hr]
      rw [hg, ih]
      simp [countResult, reported, List.filter_cons, List.any_cons, hr]
    | some res =>
      have hg : gameStep (w, l, h) g =
          ((if res = .W then w + 1 else w), (if res = .L then l + 1 else l), true) := by
        simp [gameStep, hr]
      rw [hg, ih]
      cases res <;>
        simp [countResult, reported, List.filter_cons, List.any_cons, hr] <;>
        omega

lemma gameTally_eq (games : List Game) :
    gameTally games = (countResult games .W, countResult games .L, reported games) := by
  unfold gameTally
  rw [foldl_gameStep]
  simp

lemma scoreStep_eq (acc : Nat × Nat × Nat) (r : Round) :
    scoreStep acc r =
      match roundOutcomeSpec r with
      | none => acc
      | some .win => (acc.1 + 1, acc.2.1, acc.2.2)
      | some .loss => (acc.1, acc.2.1 + 1, acc.2.2)
      | some .tie => (acc.1, acc.2.1, acc.2.2 + 1) := by
  unfold scoreStep roundOutcomeSpec
  cases hs : specialOf r with
  | some s => cases s <;> simp [hs]
  | none =>
    rw [gameTally_eq]
    by_cases hrep : reported r.games
    · by_cases hw : countResult r.games .W > countResult r.games .L
      · simp [hs, hrep, hw]
      · by_cases hl : countResult r.games .L > countResult r.games .W
        · simp [hs, hrep, hw, hl]
        · simp [hs, hrep, hw, hl]
    · simp [hs, hrep]

lemma foldl_scoreStep (rounds : List Round) (a b c : Nat) :
    rounds.foldl scoreStep (a, b, c) =
      (a + countOutcome rounds .win, b + countOutcome rounds .loss,
       c + countOutcome rounds .tie) := by
  induction rounds generalizing a b c with
  | nil => simp [countOutcome]
  | cons r rs ih =>
    rw [List.foldl_cons, scoreStep_eq]
    cases ho : roundOutcomeSpec r with
    | none =>
      rw [ih]
      simp [countOutcome, List.filter_cons, ho]
    | some o =>
      cases o <;> rw [ih] <;>
        simp [countOutcome, List.filter_cons, ho] <;>
        omega

lemma computeScore_eq (rounds : List Round) :
    computeScore rounds =
      { wins := countOutcome rounds .win,
        losses := countOutcome rounds .loss,
        ties := countOutcome rounds .tie,
        text := toString (countOutcome rounds .win) ++ "-" ++
                toString (countOutcome rounds .loss) ++ "-" ++
                toString (countOutcome rounds .tie) } := by
  unfold computeScore
  rw [foldl_scoreStep]
  simp

lemma countOutcome_sum (rounds : List Round) :
    countOutcome rounds .win + countOutcome rounds .loss + countOutcome rounds .tie =
      (rounds.filter (fun r => (roundOutcomeSpec r).isSome)).length := by
  induction rounds with
  | nil => simp [countOutcome]
  | cons r rs ih =>
    simp only [countOutcome, List.filter_cons] at ih ⊢
    cases ho : roundOutcomeSpec r with
    | none => simp [ho, ih]
    | some o => cases o <;> simp [ho, ih] <;> omega

lemma roundOutcomeSpec_isSome (r : Round) :
    (roundOutcomeSpec r).isSome = true ↔
      (specialOf r = none → reported r.games = true) := by
  unfold roundOutcomeSpec
  cases hs : specialOf r with
  | some s => cases s <;> simp
  | none =>
    by_cases hrep : reported r.games = true
    · simp only [hrep, if_true]
      constructor
      · intro _
        exact fun _ => trivial
      · intro _
        split
        · simp
        · split <;> simp
    · simp [hrep]

/-- C6: for every round collection the three tallies sum to at most the
number of rounds, with equality exactly when every non-special round has at
least one reported game result. -/
theorem C6_score_sum_le_rounds (rounds : List Round) :
    (computeScore rounds).wins + (computeScore rounds).losses +
        (computeScore rounds).ties ≤ rounds.length ∧
    ((computeScore rounds).wins + (computeScore rounds).losses +
        (computeScore rounds).ties = rounds.length ↔
      ∀ r ∈ rounds, specialOf r = none → reported r.games = true) := by
  rw [computeScore_eq]
  dsimp only
  rw [countOutcome_sum]
  constructor
  · exact List.length_filter_le _ rounds
  · rw [List.filter_length_eq_length]
    constructor
    · intro h r hr
      exact (roundOutcomeSpec_isSome r).mp (h r hr)
    · intro h r hr
      exact (roundOutcomeSpec_isSome r).mpr (h r hr)

/-- C1: the score calculator classifies rounds independently by the spec's
rules (BYE/NO_SHOW a win, ID a tie, otherwise majority of reported game
results with an unreported round contributing nothing), formats the text as
`wins-losses-ties`, and on the collection
`[{special:BYE}, {special:NO_SHOW}, {special:ID}]` yields
`{wins:2, losses:0, ties:1, text:"2-0-1"}`. -/
theorem C1_computeScore_classification (rounds : List Round) :
    computeScore rounds =
      { wins := countOutcome rounds .win,
        losses := countOutcome rounds .loss,
        ties := countOutcome rounds .tie,
        text := toString (countOutcome rounds .win) ++ "-" ++
                toString (countOutcome rounds .loss) ++ "-" ++
                toString (countOutcome rounds .tie) } ∧
    computeScore
        [{ round_number := 0, opponent_deck := none, games := [], special := .val .BYE },
         { round_number := 0, opponent_deck := none, games := [], special := .val .NO_SHOW },
         { round_number := 0, opponent_deck := none, games := [], special := .val .ID }] =
      { wins := 2, losses := 0, ties := 1, text := "2-0-1" } := by
  exact ⟨computeScore_eq rounds, by decide⟩

/-! ## Sanitizer lemmas and claims C7, C10 -/

lemma sanitizeRound_idem (r : Round) :
    sanitizeRound (sanitizeRound r) = sanitizeRound r := by
  unfold sanitizeRound
  by_cases h : r.special = .val .BYE ∨ r.special = .val .NO_SHOW ∨ r.special = .val .ID <;>
    simp [h]

/-- C10: the round sanitizer is idempotent - sanitizing an already sanitized
collection changes nothing. -/
theorem C10_sanitizeRounds_idempotent (rounds : List Round) :
    sanitizeRounds (sanitizeRounds rounds) = sanitizeRounds rounds := by
  unfold sanitizeRounds
  rw [List.map_map]
  apply List.map_congr_left
  intro r _
  exact sanitizeRound_idem r

/-- C7: for a round whose `special` is BYE, NO_SHOW or ID the sanitizer
forces the three placeholder game slots regardless of prior content, and it
defaults an absent `opponent_deck` to `{p1:null, p2:null}`. -/
theorem C7_sanitizer_forces_placeholder_games (rs : List Round) (r : Round) (h : r ∈ rs) :
    sanitizeRound r ∈ sanitizeRounds rs ∧
    ((r.special = .val .BYE ∨ r.special = .val .NO_SHOW ∨ r.special = .val .ID) →
      (sanitizeRound r).games = placeholderGames) ∧
    (r.opponent_deck = none →
      (sanitizeRound r).opponent_deck = some { p1 := none, p2 := none }) := by
  refine ⟨List.mem_map_of_mem _ h, ?_, ?_⟩
  · intro hsp
    unfold sanitizeRound
    dsimp only
    split
    · rfl
    · next hneg => exact absurd hsp hneg
  · intro hd
    unfold sanitizeRound
    dsimp only
    split <;> simp [hd]

/-- Witness for C7: the sanitizer wipes the reported game of a concrete BYE
round and installs the default deck. -/
theorem C7_witness :
    (sanitizeRound junkByeRound).games = placeholderGames ∧
    (sanitizeRound junkByeRound).opponent_deck = some { p1 := none, p2 := none } ∧
    sanitizeRound junkByeRound ∈ sanitizeRounds [junkByeRound] :=
  ⟨(C7_sanitizer_forces_placeholder_games [junkByeRound] junkByeRound (by decide)).2.1
      (by decide),
   (C7_sanitizer_forces_placeholder_games [junkByeRound] junkByeRound (by decide)).2.2
      (by decide),
   (C7_sanitizer_forces_placeholder_games [junkByeRound] junkByeRound (by decide)).1⟩

/-! ## Normalizer claims C5, C8 -/

/-- C5 counterexample: an unrecognized input produces the very same
`undefined` outcome each normalizer produces for an absent input, so the
"invalid" marker is not distinct from the "absent" outcome. -/
theorem C5_counterexample :
    normalizeResult (RawValue.str "X") = none ∧
    normalizeResult RawValue.absent = none ∧
    normalizeResult (RawValue.str "X") = normalizeResult RawValue.absent ∧
    normalizeTurn (RawValue.str "X") = normalizeTurn RawValue.absent ∧
    normalizeSpecial (RawValue.str "X") = normalizeSpecial RawValue.absent := by
  decide

/-- C5 (amended): each normalizer maps an absent input to `undefined`,
null-ish inputs (`null`, `""`, `"null"`) to explicit null, a case-insensitive
enumeration match to the canonical value, and any other input to the same
`undefined` it returns for an absent input; callers distinguish "invalid"
from "absent" by re-testing the input's presence, not from the return value
alone. -/
theorem C5_normalizers_three_way (s : String) :
    (normalizeResult RawValue.absent = none ∧
     normalizeTurn RawValue.absent = none ∧
     normalizeSpecial RawValue.absent = none) ∧
    (normalizeResult RawValue.null = some none ∧
     normalizeResult (RawValue.str "") = some none ∧
     normalizeResult (RawValue.str "null") = some none ∧
     normalizeTurn RawValue.null = some none ∧
     normalizeTurn (RawValue.str "") = some none ∧
     normalizeTurn (RawValue.str "null") = some none ∧
     normalizeSpecial RawValue.null = some none ∧
     normalizeSpecial (RawValue.str "") = some none ∧
     normalizeSpecial (RawValue.str "null") = some none) ∧
    ((toUpperAscii s = "W" → normalizeResult (RawValue.str s) = some (some .W)) ∧
     (toUpperAscii s = "L" → normalizeResult (RawValue.str s) = some (some .L)) ∧
     (toUpperAscii s = "T" → normalizeResult (RawValue.str s) = some (some .T)) ∧
     (toUpperAscii s = "FIRST" → normalizeTurn (RawValue.str s) = some (some .FIRST)) ∧
     (toUpperAscii s = "SECOND" → normalizeTurn (RawValue.str s) = some (some .SECOND)) ∧
     (toUpperAscii s = "ID" → normalizeSpecial (RawValue.str s) = some (some .ID)) ∧
     (toUpperAscii s = "NO_SHOW" → normalizeSpecial (RawValue.str s) = some (some .NO_SHOW)) ∧
     (toUpperAscii s = "BYE" → normalizeSpecial (RawValue.str s) = some (some .BYE))) ∧
    ((s ≠ "" ∧ s ≠ "null" ∧ toUpperAscii s ≠ "W" ∧ toUpperAscii s ≠ "L" ∧
        toUpperAscii s ≠ "T") →
      normalizeResult (RawValue.str s) = normalizeResult RawValue.absent) ∧
    ((s ≠ "" ∧ s ≠ "null" ∧ toUpperAscii s ≠ "FIRST" ∧ toUpperAscii s ≠ "SECOND") →
      normalizeTurn (RawValue.str s) = normalizeTurn RawValue.absent) ∧
    ((s ≠ "" ∧ s ≠ "null" ∧ toUpperAscii s ≠ "ID" ∧ toUpperAscii s ≠ "NO_SHOW" ∧
        toUpperAscii s ≠ "BYE") →
      normalizeSpecial (RawValue.str s) = normalizeSpecial RawValue.absent) := by
  refine ⟨⟨rfl, rfl, rfl⟩, ⟨rfl, rfl, rfl, rfl, rfl, rfl, rfl, rfl, rfl⟩,
    ⟨?_, ?_, ?_, ?_, ?_, ?_, ?_, ?_⟩, ?_, ?_, ?_⟩ <;>
    intro h
  case refine_1 | refine_2 | refine_3 | refine_4 | refine_5 | refine_6 | refine_7 | refine_8 =>
    have h0 : ¬(s = "" ∨ s = "null") := by
      rintro (rfl | rfl) <;> exact absurd h (by decide)
    simp [normalizeResult, normalizeTurn, normalizeSpecial, h0, h]
  case refine_9 =>
    obtain ⟨h1, h2, h3, h4, h5⟩ := h
    simp [normalizeResult, h1, h2, h3, h4, h5]
  case refine_10 =>
    obtain ⟨h1, h2, h3, h4⟩ := h
    simp [normalizeTurn, h1, h2, h3, h4]
  case refine_11 =>
    obtain ⟨h1, h2, h3, h4, h5⟩ := h
    simp [normalizeSpecial, h1, h2, h3, h4, h5]

/-- Witness for C5: a canonical match, a case-folded match, and a garbage
input collapsing to the absent outcome. -/
theorem C5_witness :
    normalizeResult (RawValue.str "w") = some (some GameResult.W) ∧
    normalizeSpecial (RawValue.str "no_show") = some (some Special.NO_SHOW) ∧
    normalizeTurn (RawValue.str "zzz") = normalizeTurn RawValue.absent :=
  ⟨((C5_normalizers_three_way "w").2.2.1).1 (by decide),
   ((C5_normalizers_three_way "no_show").2.2.1).2.2.2.2.2.2.1 (by decide),
   ((C5_normalizers_three_way "zzz").2.2.2.2.1) (by decide)⟩

lemma toIntOrNull_three_point_five :
    toIntOrNull (RawValue.str "3.5") = some ((7 : ℚ) / 2) := by
  simp [toIntOrNull, jsNumber, jsNumMag, digitsVal, List.takeWhile, List.dropWhile]
  norm_num

/-- C8 counterexample: `"3.5"` is numeric-parseable, yet `toIntOrNull`
returns the non-integer 7/2 - it parses numbers, it does not truncate them
to integers. -/
theorem C8_counterexample :
    toIntOrNull (RawValue.str "3.5") = some ((7 : ℚ) / 2) ∧
    ((7 : ℚ) / 2).den = 2 := by
  exact ⟨toIntOrNull_three_point_five, by norm_num⟩

/-- C8 (amended): `toIntOrNull` returns null for absent/null/empty input,
returns the parsed number (not necessarily an integer, e.g. `"3.5"` gives
7/2) for numeric-parseable input, and returns null - never an invalid
marker - for non-numeric input. -/
theorem C8_toIntOrNull_lenient (s : String) (x : ℚ) :
    (toIntOrNull RawValue.absent = none ∧
     toIntOrNull RawValue.null = none ∧
     toIntOrNull (RawValue.str "") = none) ∧
    (jsNumber s = none → toIntOrNull (RawValue.str s) = none) ∧
    (jsNumber s = some x → toIntOrNull (RawValue.str s) = some x) ∧
    toIntOrNull (RawValue.str "3.5") = some ((7 : ℚ) / 2) ∧
    ((7 : ℚ) / 2).den = 2 := by
  refine ⟨⟨rfl, rfl, rfl⟩, ?_, ?_, toIntOrNull_three_point_five, by norm_num⟩
  · intro h
    by_cases hs : s = ""
    · simp [toIntOrNull, hs]
    · simp [toIntOrNull, hs, h]
  · intro h
    by_cases hs : s = ""
    · subst hs
      have hn : jsNumber "" = none := by decide
      rw [hn] at h
      exact absurd h (by simp)
    · simp [toIntOrNull, hs, h]

/-- Witness for C8: an integer parse and a non-numeric input. -/
theorem C8_witness :
    toIntOrNull (RawValue.str "7") = some ((7 : Nat) : ℚ) ∧
    toIntOrNull (RawValue.str "abc") = none :=
  ⟨(C8_toIntOrNull_lenient "7" ((7 : Nat) : ℚ)).2.2.1 (by decide),
   (C8_toIntOrNull_lenient "abc" 0).2.1 (by decide)⟩

/-! ## Handler short-circuit claim C9 -/

/-- C9 counterexample: with `logged_in_customer_id` absent, the
`src/api/tournaments.js` handler does not answer `{ok:true, logged_in:false}`
(it answers `{ok:true, tournaments:[]}`), so not every handler returns the
body the claim states. -/
theorem C9_counterexample :
    tournamentsRoute RawValue.absent ≠ HandlerStep.respond Body.loggedOut := by
  decide

/-- C9 (amended): with `logged_in_customer_id` absent (or otherwise falsy)
every handler short-circuits before dispatch or any database access; the
proxy handler answers `{ok:true, logged_in:false}` while the tournaments
handler answers `{ok:true, tournaments:[]}`. -/
theorem C9_short_circuit_on_missing_customer :
    (proxyRoute RawValue.absent = HandlerStep.respond Body.loggedOut ∧
     tournamentsRoute RawValue.absent = HandlerStep.respond Body.tournamentsEmpty) ∧
    (∀ v : RawValue, v = .absent ∨ v = .null ∨ v = .str "" →
      proxyRoute v = HandlerStep.respond Body.loggedOut ∧
      tournamentsRoute v = HandlerStep.respond Body.tournamentsEmpty) := by
  constructor
  · exact ⟨rfl, rfl⟩
  · rintro v (rfl | rfl | rfl) <;> exact ⟨rfl, rfl⟩

/-- Witness for C9 at the empty-string falsy value. -/
theorem C9_witness :
    proxyRoute (RawValue.str "") = HandlerStep.respond Body.loggedOut ∧
    tournamentsRoute (RawValue.str "") = HandlerStep.respond Body.tournamentsEmpty :=
  C9_short_circuit_on_missing_customer.2 (RawValue.str "") (by decide)

/-! ## Derived-score claim C2 -/

/-- C2 counterexample: the part_003 pipeline persists rounds through
`saveRounds` without recomputing the score - after its `addRound` on the
record its own `createTournament` inserts, the stored score (`{}`) differs
from the score calculator applied to the stored rounds. -/
theorem C2_counterexample :
    part3_createTournament (RawValue.str "Cup") (RawValue.str "2024-05-01") =
      some { rounds := [], score := .empty } ∧
    ¬ scoreConsistent (part3_addRound { rounds := [], score := .empty }) := by
  constructor
  · decide
  · simp [scoreConsistent, part3_addRound, saveRounds]

/-- C2 (amended): in the part_002 pipeline every round-mutating write goes
through `persistRounds`, which passes the rounds through the sanitizer and
overwrites the score column with the score calculator's output, so after
creation, `addRound` and a successful `updateRound` the stored score equals
`computeScore` of the stored rounds; the legacy part_003 pipeline's
`saveRounds` does not maintain this invariant. -/
theorem C2_score_recomputed_on_every_write (t : TournamentRec)
    (rounds : List Round) (name date : RawValue) (q : Patch) :
    scoreConsistent (persistRounds t rounds) ∧
    (persistRounds t rounds).rounds = sanitizeRounds rounds ∧
    (∀ t0, part2_createTournament name date = some t0 → scoreConsistent t0) ∧
    scoreConsistent (part2_addRound t) ∧
    (∀ t', part2_updateRound t q = .ok t' → scoreConsistent t') := by
  refine ⟨rfl, rfl, ?_, rfl, ?_⟩
  · intro t0 h
    unfold part2_createTournament at h
    split at h
    · cases h
      rfl
    · cases h
  · intro t' h
    unfold part2_updateRound at h
    split at h
    · cases h
    · split at h
      · cases h
      · split at h
        · cases h
        · cases h
          rfl

/-- Witness for C2: the invariant holds on concrete create, add-round and
update-round outputs. -/
theorem C2_witness :
    scoreConsistent (persistRounds { rounds := [], score := .empty } [junkByeRound]) ∧
    scoreConsistent (part2_addRound { rounds := [], score := .empty }) :=
  ⟨(C2_score_recomputed_on_every_write { rounds := [], score := .empty }
      [junkByeRound] .absent .absent emptyPatch).1,
   (C2_score_recomputed_on_every_write { rounds := [], score := .empty }
      [junkByeRound] .absent .absent emptyPatch).2.2.2.1⟩

/-! ## Round numbering claim C4 -/

lemma init_le_foldl_max (rounds : List Round) (init : ℚ) :
    init ≤ rounds.foldl (fun m r => max m r.round_number) init := by
  induction rounds generalizing init with
  | nil => exact le_refl init
  | cons r rs ih => exact le_trans (le_max_left _ _) (ih _)

lemma mem_le_foldl_max (rounds : List Round) (init : ℚ) (r : Round) (h : r ∈ rounds) :
    r.round_number ≤ rounds.foldl (fun m r => max m r.round_number) init := by
  induction rounds generalizing init with
  | nil => cases h
  | cons x xs ih =>
    rcases List.mem_cons.mp h with rfl | hx
    · exact le_trans (le_max_right _ _) (init_le_foldl_max xs _)
    · exact ih _ hx

/-- C4 counterexample: on a tournament whose single stored round is numbered
5, part_002 `addRound` assigns round number 2 (`rounds.length + 1`), not
`max(existing round_number, default 0) + 1 = 6`. -/
theorem C4_counterexample :
    ((part2_addRound { rounds := [freshRound 5], score := .empty }).rounds.map
        (fun r => r.round_number)) = [5, 2] ∧
    maxRoundNumber [freshRound 5] + 1 = 6 := by
  constructor
  · decide
  · show max (0 : ℚ) 5 + 1 = 6
    norm_num

/-- C4 (amended): part_003 `addRound` appends a round numbered
`max(existing round_number, default 0) + 1`, strictly above every existing
round number, so repeated calls always yield strictly increasing, unique
numbers; part_002 `addRound` instead appends round number
`rounds.length + 1`, which agrees with `max+1` only on consecutively
numbered collections (such as those these endpoints themselves build). -/
theorem C4_addRound_numbering (t : TournamentRec) :
    (part3_addRound t).rounds = t.rounds ++ [freshRound (maxRoundNumber t.rounds + 1)] ∧
    (∀ r ∈ t.rounds, r.round_number < maxRoundNumber t.rounds + 1) ∧
    (part2_addRound t).rounds =
      sanitizeRounds (t.rounds ++ [freshRound ((t.rounds.length + 1 : Nat) : ℚ)]) := by
  refine ⟨rfl, ?_, rfl⟩
  intro r h
  exact lt_of_le_of_lt (mem_le_foldl_max t.rounds 0 r h) (lt_add_one _)

/-- Witness for C4 on a concrete one-round tournament. -/
theorem C4_witness :
    (part3_addRound oneRoundRec).rounds =
      oneRoundRec.rounds ++ [freshRound (maxRoundNumber oneRoundRec.rounds + 1)] ∧
    (freshRound 1).round_number < maxRoundNumber oneRoundRec.rounds + 1 :=
  ⟨(C4_addRound_numbering oneRoundRec).1,
   (C4_addRound_numbering oneRoundRec).2.1 (freshRound 1) (by decide)⟩

/-! ## updateRound atomicity claim C3 -/

lemma part3_applySpecial_ok (round : Round) (q : Patch) (r' : Round) :
    part3_applySpecial round q = .ok r' ↔
      ¬ specialInvalid q ∧ r' = specialApplied round q := by
  unfold part3_applySpecial specialApplied specialInvalid
  by_cases h : q.special = .absent
  · simp [h, eq_comm]
  · cases hn : normalizeSpecial q.special with
    | none => simp [h, hn]
    | some s => simp [h, hn, eq_comm]

lemma part3_applyGames_ok (round : Round) (q : Patch) (r' : Round) :
    part3_applyGames round q = .ok r' ↔
      ¬ gamesInvalid q ∧ r' = gamesApplied round q := by
  unfold part3_applyGames gamesApplied gamesInvalid
  dsimp only
  by_cases h1 : q.g1 ≠ .absent ∧ normalizeResult q.g1 = none
  · simp [h1]
  · by_cases h2 : q.g2 ≠ .absent ∧ normalizeResult q.g2 = none
    · simp [h1, h2]
    · by_cases h3 : q.g3 ≠ .absent ∧ normalizeResult q.g3 = none
      · simp [h1, h2, h3]
      · by_cases h4 : q.g1_turn ≠ .absent ∧ normalizeTurn q.g1_turn = none
        · simp [h1, h2, h3, h4]
        · by_cases h5 : q.g2_turn ≠ .absent ∧ normalizeTurn q.g2_turn = none
          · simp [h1, h2, h3, h4, h5]
          · by_cases h6 : q.g3_turn ≠ .absent ∧ normalizeTurn q.g3_turn = none
            · simp [h1, h2, h3, h4, h5, h6]
            · rw [if_neg h1, if_neg h2, if_neg h3, if_neg h4, if_neg h5, if_neg h6]
              constructor
              · intro hh
                refine ⟨?_, (Except.ok.inj hh).symm⟩
                rintro (h | h | h | h | h | h) <;> contradiction
              · rintro ⟨-, rfl⟩
                rfl

lemma part3_applyGames_error (round : Round) (q : Patch) (h : gamesInvalid q) :
    ∃ e, part3_applyGames round q = .error e := by
  unfold part3_applyGames
  dsimp only
  by_cases h1 : q.g1 ≠ .absent ∧ normalizeResult q.g1 = none
  · exact ⟨_, by rw [if_pos h1]⟩
  · by_cases h2 : q.g2 ≠ .absent ∧ normalizeResult q.g2 = none
    · exact ⟨_, by rw [if_neg h1, if_pos h2]⟩
    · by_cases h3 : q.g3 ≠ .absent ∧ normalizeResult q.g3 = none
      · exact ⟨_, by rw [if_neg h1, if_neg h2, if_pos h3]⟩
      · by_cases h4 : q.g1_turn ≠ .absent ∧ normalizeTurn q.g1_turn = none
        · exact ⟨_, by rw [if_neg h1, if_neg h2, if_neg h3, if_pos h4]⟩
        · by_cases h5 : q.g2_turn ≠ .absent ∧ normalizeTurn q.g2_turn = none
          · exact ⟨_, by rw [if_neg h1, if_neg h2, if_neg h3, if_neg h4, if_pos h5]⟩
          · by_cases h6 : q.g3_turn ≠ .absent ∧ normalizeTurn q.g3_turn = none
            · exact ⟨_, by rw [if_neg h1, if_neg h2, if_neg h3, if_neg h4, if_neg h5, if_pos h6]⟩
            · exfalso
              unfold gamesInvalid at h
              rcases h with h | h | h | h | h | h <;> contradiction

lemma part3_applyDeck_eq (q : Patch) (n : ℚ) (dk : Option Deck) (gs : List Game)
    (sp : UOpt Special) :
    part3_applyDeck { round_number := n, opponent_deck := dk, games := gs, special := sp } q =
      { round_number := n,
        opponent_deck :=
          if q.op_p1 = .absent ∧ q.op_p2 = .absent then dk
          else some
            { p1 := if q.op_p1 = .absent then (dk.getD { p1 := none, p2 := none }).p1
                    else toIntOrNull q.op_p1,
              p2 := if q.op_p2 = .absent then (dk.getD { p1 := none, p2 := none }).p2
                    else toIntOrNull q.op_p2 },
        games := gs, special := sp } := by
  by_cases h1 : q.op_p1 = .absent <;> by_cases h2 : q.op_p2 = .absent <;>
    simp [part3_applyDeck, h1, h2]

lemma specialApplied_eq (q : Patch) (n : ℚ) (dk : Option Deck) (gs : List Game)
    (sp : UOpt Special) :
    specialApplied { round_number := n, opponent_deck := dk, games := gs, special := sp } q =
      { round_number := n, opponent_deck := dk, games := gs,
        special :=
          if q.special = .absent then sp
          else uoptOfOpt ((normalizeSpecial q.special).getD none) } := by
  by_cases h : q.special = .absent <;> simp [specialApplied, h]

lemma gamesApplied_std (q : Patch) (n : ℚ) (dk : Option Deck) (sp : UOpt Special)
    (a b c : Game) (ha : a.game = 1) (hb : b.game = 2) (hc : c.game = 3) :
    gamesApplied { round_number := n, opponent_deck := dk, games := [a, b, c], special := sp } q =
      { round_number := n, opponent_deck := dk,
        games :=
          [{ game := a.game,
             result := if q.g1 = .absent then a.result else (normalizeResult q.g1).getD none,
             turn := if q.g1_turn = .absent then a.turn else (normalizeTurn q.g1_turn).getD none },
           { game := b.game,
             result := if q.g2 = .absent then b.result else (normalizeResult q.g2).getD none,
             turn := if q.g2_turn = .absent then b.turn else (normalizeTurn q.g2_turn).getD none },
           { game := c.game,
             result := if q.g3 = .absent then c.result else (normalizeResult q.g3).getD none,
             turn := if q.g3_turn = .absent then c.turn else (normalizeTurn q.g3_turn).getD none }],
        special := sp } := by
  have e21 : ((2 : ℚ) = 1) = False := by norm_num
  have e31 : ((3 : ℚ) = 1) = False := by norm_num
  have e12 : ((1 : ℚ) = 2) = False := by norm_num
  have e32 : ((3 : ℚ) = 2) = False := by norm_num
  have e13 : ((1 : ℚ) = 3) = False := by norm_num
  have e23 : ((2 : ℚ) = 3) = False := by norm_num
  have hbn1 : byNumGet [a, b, c] 1 = a := by
    simp [byNumGet, ha, hb, hc, e21, e31]
  have hbn2 : byNumGet [a, b, c] 2 = b := by
    simp [byNumGet, ha, hb, hc, e12, e32]
  have hbn3 : byNumGet [a, b, c] 3 = c := by
    simp [byNumGet, ha, hb, hc, e13, e23]
  unfold gamesApplied
  dsimp only
  rw [hbn1, hbn2, hbn3]
  by_cases p1 : q.g1 = .absent <;> by_cases p4 : q.g1_turn = .absent <;>
    by_cases p2 : q.g2 = .absent <;> by_cases p5 : q.g2_turn = .absent <;>
    by_cases p3 : q.g3 = .absent <;> by_cases p6 : q.g3_turn = .absent <;>
    simp [p1, p2, p3, p4, p5, p6]

lemma part3_apply_std (q : Patch) (n : ℚ) (dk : Option Deck) (sp : UOpt Special)
    (a b c : Game) (ha : a.game = 1) (hb : b.game = 2) (hc : c.game = 3) :
    part3_apply { round_number := n, opponent_deck := dk, games := [a, b, c], special := sp } q =
      { round_number := n,
        opponent_deck :=
          if q.op_p1 = .absent ∧ q.op_p2 = .absent then dk
          else some
            { p1 := if q.op_p1 = .absent then (dk.getD { p1 := none, p2 := none }).p1
                    else toIntOrNull q.op_p1,
              p2 := if q.op_p2 = .absent then (dk.getD { p1 := none, p2 := none }).p2
                    else toIntOrNull q.op_p2 },
        games :=
          [{ game := a.game,
             result := if q.g1 = .absent then a.result else (normalizeResult q.g1).getD none,
             turn := if q.g1_turn = .absent then a.turn else (normalizeTurn q.g1_turn).getD none },
           { game := b.game,
             result := if q.g2 = .absent then b.result else (normalizeResult q.g2).getD none,
             turn := if q.g2_turn = .absent then b.turn else (normalizeTurn q.g2_turn).getD none },
           { game := c.game,
             result := if q.g3 = .absent then c.result else (normalizeResult q.g3).getD none,
             turn := if q.g3_turn = .absent then c.turn else (normalizeTurn q.g3_turn).getD none }],
        special :=
          if q.special = .absent then sp
          else uoptOfOpt ((normalizeSpecial q.special).getD none) } := by
  unfold part3_apply
  rw [part3_applyDeck_eq, specialApplied_eq, gamesApplied_std q _ _ _ a b c ha hb hc]

lemma part3_updateRound_error_of_invalid (t : TournamentRec) (q : Patch)
    (h : presentInvalid q) :
    ∃ e, part3_updateRound t q = .error e := by
  unfold part3_updateRound
  cases htn : toIntOrNull q.round_number with
  | none => exact ⟨_, rfl⟩
  | some rn =>
    dsimp only
    by_cases hz : rn = 0
    · rw [if_pos hz]
      exact ⟨_, rfl⟩
    · rw [if_neg hz]
      cases hf : t.rounds.findIdx? (fun r => decide (r.round_number = rn)) with
      | none => exact ⟨_, rfl⟩
      | some idx =>
        dsimp only
        unfold presentInvalid at h
        rcases h with hsp | hg
        · unfold specialInvalid at hsp
          have hx : part3_applySpecial
              (part3_applyDeck (t.rounds.getD idx defaultRound) q) q =
              .error "Invalid special value" := by
            unfold part3_applySpecial
            rw [if_neg hsp.1, hsp.2]
          rw [hx]
          exact ⟨_, rfl⟩
        · cases hs2 : part3_applySpecial
              (part3_applyDeck (t.rounds.getD idx defaultRound) q) q with
          | error e =>
            exact ⟨e, rfl⟩
          | ok round2 =>
            obtain ⟨e, he⟩ := part3_applyGames_error round2 q hg
            dsimp only
            rw [he]
            exact ⟨e, rfl⟩

lemma part3_updateRound_ok_shape (t : TournamentRec) (q : Patch) (t' : TournamentRec)
    (h : part3_updateRound t q = .ok t') :
    ¬ presentInvalid q ∧
    ∃ idx, idx < t.rounds.length ∧
      t' = saveRounds t (t.rounds.set idx
        (part3_apply (t.rounds.getD idx defaultRound) q)) := by
  unfold part3_updateRound at h
  split at h
  · simp at h
  · next rn hrn =>
    split at h
    · simp at h
    · next hz =>
      split at h
      · simp at h
      · next idx hf =>
        dsimp only at h
        split at h
        · simp at h
        · next round2 hsp =>
          split at h
          · simp at h
          · next round3 hgm =>
            obtain ⟨hnsp, hr2⟩ := (part3_applySpecial_ok _ q round2).mp hsp
            obtain ⟨hng, hr3⟩ := (part3_applyGames_ok _ q round3).mp hgm
            refine ⟨?_, idx, ?_, ?_⟩
            · rintro (hbad | hbad)
              · exact hnsp hbad
              · exact hng hbad
            · exact (List.findIdx?_eq_some_iff_findIdx_eq.mp hf).1
            · rw [← Except.ok.inj h, hr3, hr2]
              rfl

/-- C3 counterexample: part_002 `updateRound` is not all-or-nothing - with
an invalid `special` value it succeeds, writes, and stores JavaScript
`undefined` into the round's `special`; with an invalid `g1` it silently
skips the field and still succeeds and writes, instead of failing with a
validation error and leaving the store untouched. -/
theorem C3_counterexample :
    part2_updateRound oneRoundRec invalidSpecialPatch =
      .ok { rounds := [undefSpecialRound],
            score := .score { wins := 0, losses := 0, ties := 0, text := "0-0-0" } } ∧
    part2_updateRound oneRoundRec invalidG1Patch = .ok oneRoundRec := by
  constructor <;> decide

/-- C3 (amended): part_003 `updateRound` is all-or-nothing exactly as the
claim states: a patch with any present-but-invalid field always fails with
an error and performs no store write; a successful call writes exactly one
round, patched by `part3_apply`, which leaves fields absent from the patch
untouched and applies every present field (shown by the normal form on a
round with the standard three game slots).  part_002 `updateRound` violates
this contract (see the counterexample). -/
theorem C3_part3_updateRound_all_or_nothing (t : TournamentRec) (q : Patch) :
    (presentInvalid q → ∃ e, part3_updateRound t q = .error e) ∧
    (∀ t', part3_updateRound t q = .ok t' →
      ¬ presentInvalid q ∧
      ∃ idx, idx < t.rounds.length ∧
        t' = saveRounds t (t.rounds.set idx
          (part3_apply (t.rounds.getD idx defaultRound) q))) ∧
    (∀ (n : ℚ) (dk : Option Deck) (sp : UOpt Special) (a b c : Game),
      a.game = 1 → b.game = 2 → c.game = 3 →
      part3_apply { round_number := n, opponent_deck := dk, games := [a, b, c],
                    special := sp } q =
        { round_number := n,
          opponent_deck :=
            if q.op_p1 = .absent ∧ q.op_p2 = .absent then dk
            else some
              { p1 := if q.op_p1 = .absent then (dk.getD { p1 := none, p2 := none }).p1
                      else toIntOrNull q.op_p1,
                p2 := if q.op_p2 = .absent then (dk.getD { p1 := none, p2 := none }).p2
                      else toIntOrNull q.op_p2 },
          games :=
            [{ game := a.game,
               result := if q.g1 = .absent then a.result else (normalizeResult q.g1).getD none,
               turn := if q.g1_turn = .absent then a.turn else (normalizeTurn q.g1_turn).getD none },
             { game := b.game,
               result := if q.g2 = .absent then b.result else (normalizeResult q.g2).getD none,
               turn := if q.g2_turn = .absent then b.turn else (normalizeTurn q.g2_turn).getD none },
             { game := c.game,
               result := if q.g3 = .absent then c.result else (normalizeResult q.g3).getD none,
               turn := if q.g3_turn = .absent then c.turn else (normalizeTurn q.g3_turn).getD none }],
          special :=
            if q.special = .absent then sp
            else uoptOfOpt ((normalizeSpecial q.special).getD none) }) :=
  ⟨part3_updateRound_error_of_invalid t q,
   fun t' h => part3_updateRound_ok_shape t q t' h,
   fun n dk sp a b c ha hb hc => part3_apply_std q n dk sp a b c ha hb hc⟩

/-- Witness for C3: a concrete invalid patch is rejected, and a concrete
valid patch produces exactly the one-round write. -/
theorem C3_witness :
    (∃ e, part3_updateRound oneRoundRec invalidG1Patch = Except.error e) ∧
    (¬ presentInvalid validPatch ∧
      ∃ idx, idx < oneRoundRec.rounds.length ∧
        updatedOneRoundRec = saveRounds oneRoundRec (oneRoundRec.rounds.set idx
          (part3_apply (oneRoundRec.rounds.getD idx defaultRound) validPatch))) :=
  ⟨(C3_part3_updateRound_all_or_nothing oneRoundRec invalidG1Patch).1 (by decide),
   (C3_part3_updateRound_all_or_nothing oneRoundRec validPatch).2.1 updatedOneRoundRec
     (by decide)⟩

/-- Witness for C1: the characterization instantiated at the empty
collection yields the concrete BYE/NO_SHOW/ID example. -/
theorem C1_witness :
    computeScore
        [{ round_number := 0, opponent_deck := none, games := [], special := .val .BYE },
         { round_number := 0, opponent_deck := none, games := [], special := .val .NO_SHOW },
         { round_number := 0, opponent_deck := none, games := [], special := .val .ID }] =
      { wins := 2, losses := 0, ties := 1, text := "2-0-1" } :=
  (C1_computeScore_classification []).2

/-- Witness for C6 at a concrete one-round collection. -/
theorem C6_witness :
    (computeScore [junkByeRound]).wins + (computeScore [junkByeRound]).losses +
        (computeScore [junkByeRound]).ties ≤ [junkByeRound].length ∧
    ((computeScore [junkByeRound]).wins + (computeScore [junkByeRound]).losses +
        (computeScore [junkByeRound]).ties = [junkByeRound].length ↔
      ∀ r ∈ [junkByeRound], specialOf r = none → reported r.games = true) :=
  C6_score_sum_le_rounds [junkByeRound]

/-- Witness for C10 at a concrete unsanitized collection. -/
theorem C10_witness :
    sanitizeRounds (sanitizeRounds [junkByeRound]) = sanitizeRounds [junkByeRound] :=
  C10_sanitizeRounds_idempotent [junkByeRound]

end Torneos
